import Mathlib

/-!
Shallow embedding of the GA4 audit report core (src/app.py): the metric
fetcher contract, the report aggregation arithmetic, the insight rules and
the row-file (CSV) exporter data shaping. Python float division and
`round(x, 2)` are modelled over the rationals.
-/

namespace GAAudit

/-- Model of Python `round(x, 2)`: round to 2 decimal places. Ties are
modelled as round-half-up, that is `⌊q * 100 + 1/2⌋ / 100`; the spec notes
the tie-break choice is not semantically significant and no claim hits a
tie. -/
def round2 (q : ℚ) : ℚ := (⌊q * 100 + 1 / 2⌋ : ℚ) / 100

/-- Funnel event counts, one per stage, `funnel_data` in app.py lines
497-509 (an absent row yields count 0 for that stage). -/
structure FunnelCounts where
  view_item : ℕ
  add_to_cart : ℕ
  begin_checkout : ℕ
  purchase : ℕ
deriving DecidableEq, Repr

/-- Derived stage-to-stage conversion percentages (app.py lines 592-595). -/
structure FunnelRates where
  view_to_cart : ℚ
  cart_to_checkout : ℚ
  checkout_to_purchase : ℚ
  view_to_purchase : ℚ
deriving DecidableEq, Repr

/-- Funnel conversion rates, app.py lines 591-595: the whole block is
guarded by `if funnel_data["view_item"] > 0`, so no rates are computed at
all when `view_item = 0`; inside the guard, the cart and checkout
denominators fall back to 0 when their own stage count is 0. -/
def funnel_rates (f : FunnelCounts) : Option FunnelRates :=
  if f.view_item > 0 then
    some
      { view_to_cart := round2 ((f.add_to_cart : ℚ) / f.view_item * 100)
        cart_to_checkout :=
          if f.add_to_cart > 0 then
            round2 ((f.begin_checkout : ℚ) / f.add_to_cart * 100)
          else 0
        checkout_to_purchase :=
          if f.begin_checkout > 0 then
            round2 ((f.purchase : ℚ) / f.begin_checkout * 100)
          else 0
        view_to_purchase := round2 ((f.purchase : ℚ) / f.view_item * 100) }
  else none

/-- Sessions-per-user ratio, app.py line 427. -/
def sessions_per_user (total_sessions total_users : ℕ) : ℚ :=
  if total_users > 0 then round2 ((total_sessions : ℚ) / total_users) else 0

/-- One row of the channel-grouping query (dimension value and session
count), consumed by the loop at app.py lines 443-448. -/
structure ChannelRow where
  channel : String
  sessions : ℕ
deriving DecidableEq, Repr

/-- Unassigned-session detection, app.py lines 440-448: scan the channel
rows; a row whose channel is the literal "Unassigned" overwrites the
accumulator with its session count. -/
def unassigned_sessions (rows : List ChannelRow) : ℕ :=
  rows.foldl (fun acc row => if row.channel = "Unassigned" then row.sessions else acc) 0

/-- Percent of baseline sessions that are unassigned, app.py line 450.
The denominator is the baseline `total_sessions`, not the channel sum. -/
def percent_unassigned (unassigned total_sessions : ℕ) : ℚ :=
  if total_sessions > 0 then round2 ((unassigned : ℚ) / total_sessions * 100) else 0

/-- One row of the sessionMedium query for unassigned traffic (app.py
lines 460-462). -/
structure MediumRow where
  medium : String
  sessions : ℕ
deriving DecidableEq, Repr

/-- MediumBreakdown built at app.py lines 459-463: one (medium, sessions)
entry per returned row, in order. -/
def unassigned_mediums (rows : List MediumRow) : List (String × ℕ) :=
  rows.map (fun r => (r.medium, r.sessions))

/-- One raw row of an analytics API report: ordered dimension values and
ordered metric values, as strings (the API returns stringly-typed cells;
app.py converts with `int(...)` / `float(...)` at each use site). -/
structure MetricRow where
  dimensionValues : List String
  metricValues : List String
deriving DecidableEq, Repr

/-- Model of a parsed-or-not HTTP response body for a report query:
either the payload is not valid JSON, or it parsed to a dict that may
carry an `error` envelope (itself with an optional `message` field) and
may carry a `rows` list. -/
inductive ApiResponse where
  | unparseable : ApiResponse
  | parsed (err : Option (Option String)) (rows : Option (List MetricRow)) : ApiResponse
deriving DecidableEq, Repr

/-- FetchError taxonomy from the spec, realised by the two `st.error` +
`st.stop` branches of `fetch_metric_report` (app.py lines 405-413). -/
inductive FetchError where
  | invalidResponse : FetchError
  | apiError (message : String) : FetchError
deriving DecidableEq, Repr

/-- Report fetch, app.py lines 394-415: a body that fails JSON parsing
aborts with an invalid-response error; a parsed body whose dict contains
an `error` key aborts with that envelope's message (falling back to
"Unknown error" when the envelope has no message); otherwise the parsed
dict is returned, here represented by its optional `rows` field. -/
def fetch_metric_report : ApiResponse → Except FetchError (Option (List MetricRow))
  | .unparseable => .error .invalidResponse
  | .parsed (some env) _ => .error (.apiError (env.getD "Unknown error"))
  | .parsed none rows => .ok rows

/-- Caller-side row extraction `result.get("rows", [])` (app.py lines
443, 460, 487): a missing `rows` key reads as the empty list. -/
def rowsOf (rows : Option (List MetricRow)) : List MetricRow := rows.getD []

/-- AggregationError taxonomy from the spec: the only hard aggregation
failure is a missing sessions/users baseline row (app.py lines 428-430). -/
inductive AggregationError where
  | missingBaseline : AggregationError
deriving DecidableEq, Repr

/-- Baseline sessions/users row already converted with `int(...)`
(app.py lines 425-426). -/
structure BaselineRow where
  sessions : ℕ
  users : ℕ
deriving DecidableEq, Repr

/-- Transactions/revenue row already converted with `int(...)` /
`float(...)` (app.py lines 473-474). -/
structure TransRevRow where
  transactions : ℕ
  revenue : ℚ
deriving DecidableEq, Repr

/-- Duplicate-transaction row (app.py lines 488-489): transaction id and
its occurrence count, pre-filtered by the API to counts > 1. -/
structure DupRow where
  transaction_id : String
  count : ℕ
deriving DecidableEq, Repr

/-- Flat audit summary assembled at app.py lines 520-528. -/
structure AuditSummary where
  total_sessions : ℕ
  total_users : ℕ
  sessions_per_user : ℚ
  unassigned_sessions : ℕ
  percent_unassigned : ℚ
  total_transactions : ℕ
  total_revenue : ℚ
deriving DecidableEq, Repr

/-- Everything one audit run produces for display and export. -/
structure AuditOutput where
  summary : AuditSummary
  mediums : List (String × ℕ)
  duplicates : List (String × ℕ)
  funnel : FunnelCounts
deriving DecidableEq, Repr

/-- Duplicate-transaction list built at app.py lines 486-490: a plain
copy of (id, count) per returned row, no re-thresholding. -/
def duplicate_transaction_ids (rows : List DupRow) : List (String × ℕ) :=
  rows.map (fun r => (r.transaction_id, r.count))

/-- Report aggregation, app.py lines 422-528, as one pure function over
the fetched row sets. An empty sessions/users row list hits the
`st.error` / `st.stop` branch at lines 428-430, aborting the run with
no summary; an empty transactions/revenue row list falls to the default
branch at lines 475-477 (totals 0) and the run continues. -/
def aggregate (sessions_users_rows : List BaselineRow)
    (channel_rows : List ChannelRow) (medium_rows : List MediumRow)
    (trans_rev_rows : List TransRevRow) (dup_rows : List DupRow)
    (funnel : FunnelCounts) : Except AggregationError AuditOutput :=
  match sessions_users_rows with
  | [] => .error .missingBaseline
  | baseline :: _ =>
    let total_sessions := baseline.sessions
    let total_users := baseline.users
    let unassigned := unassigned_sessions channel_rows
    let (total_transactions, total_revenue) :=
      match trans_rev_rows with
      | [] => (0, 0)
      | tr :: _ => (tr.transactions, tr.revenue)
    .ok
      { summary :=
          { total_sessions := total_sessions
            total_users := total_users
            sessions_per_user := sessions_per_user total_sessions total_users
            unassigned_sessions := unassigned
            percent_unassigned := percent_unassigned unassigned total_sessions
            total_transactions := total_transactions
            total_revenue := total_revenue }
        mediums := unassigned_mediums medium_rows
        duplicates := duplicate_transaction_ids dup_rows
        funnel := funnel }

/-- Low-engagement warning text (app.py line 663). -/
def lowEngagementWarning : String :=
  "⚠️ **Low sessions per user** - Consider improving user engagement"

/-- Attribution warning text (app.py line 665). -/
def attributionWarning : String :=
  "⚠️ **High unassigned traffic** - Review UTM parameters and attribution"

/-- Duplicate-transaction warning text (app.py line 667). -/
def duplicateWarning : String :=
  "⚠️ **Duplicate transactions detected** - Review e-commerce implementation"

/-- Missing-purchase-events warning text (app.py line 669). -/
def trackingWarning : String :=
  "⚠️ **No purchase events** - Check e-commerce tracking setup"

/-- All-healthy confirmation text (app.py line 675). -/
def allHealthyMessage : String := "✅ All metrics look healthy!"

/-- Insight rules, app.py lines 661-669: start from an empty list and
append each warning whose condition holds, in the source's fixed order. -/
def insights (spu : ℚ) (pct_unassigned : ℚ) (duplicates : List (String × ℕ))
    (purchase : ℕ) : List String :=
  let ins : List String := []
  let ins := if spu < 1.5 then ins ++ [lowEngagementWarning] else ins
  let ins := if pct_unassigned > 20 then ins ++ [attributionWarning] else ins
  let ins := if duplicates.length > 0 then ins ++ [duplicateWarning] else ins
  let ins := if purchase = 0 then ins ++ [trackingWarning] else ins
  ins

/-- Insight display, app.py lines 671-675: write each collected insight,
or the single all-healthy confirmation when none was collected. -/
def insights_output (spu : ℚ) (pct_unassigned : ℚ)
    (duplicates : List (String × ℕ)) (purchase : ℕ) : List String :=
  match insights spu pct_unassigned duplicates purchase with
  | [] => [allHealthyMessage]
  | ins => ins

/-- Value of one exported CSV cell. `percent p` stands for the formatted
string interpolation of `p` followed by a percent sign (app.py line 631);
the remaining cells carry their numbers unformatted. -/
inductive CsvValue where
  | nat (n : ℕ) : CsvValue
  | rat (q : ℚ) : CsvValue
  | percent (q : ℚ) : CsvValue
deriving DecidableEq, Repr

/-- Fixed two-column CSV header (app.py line 648). -/
def csv_header : List String := ["Metric", "Value"]

/-- Row-file export data, app.py lines 626-646: eleven base metric rows
(ending with the four funnel event counts), then one row per unassigned
medium, then one row per duplicate transaction. -/
def csv_audit_data (a : AuditSummary) (funnel : FunnelCounts)
    (mediums duplicates : List (String × ℕ)) : List (String × CsvValue) :=
  [("Total Sessions (L90)", .nat a.total_sessions),
   ("Total Users (L90)", .nat a.total_users),
   ("Sessions per User", .rat a.sessions_per_user),
   ("Unassigned Sessions (L90)", .nat a.unassigned_sessions),
   ("Percent Unassigned Sessions", .percent a.percent_unassigned),
   ("Total Transactions (L90)", .nat a.total_transactions),
   ("Total Revenue (L90)", .rat a.total_revenue),
   ("View Item Events", .nat funnel.view_item),
   ("Add to Cart Events", .nat funnel.add_to_cart),
   ("Begin Checkout Events", .nat funnel.begin_checkout),
   ("Purchase Events", .nat funnel.purchase)]
  ++ mediums.map (fun m => ("Unassigned - " ++ m.1, CsvValue.nat m.2))
  ++ duplicates.map (fun d => ("Duplicate Transaction - " ++ d.1, CsvValue.nat d.2))

lemma round2_nonneg {q : ℚ} (hq : 0 ≤ q) : 0 ≤ round2 q := by
  have h100 : (0 : ℚ) ≤ q * 100 := mul_nonneg hq (by norm_num)
  have hfl : (0 : ℤ) ≤ ⌊q * 100 + 1 / 2⌋ := Int.floor_nonneg.mpr (by linarith)
  unfold round2
  have : (0 : ℚ) ≤ (⌊q * 100 + 1 / 2⌋ : ℚ) := by exact_mod_cast hfl
  linarith

lemma div_mul_hundred (b a : ℚ) : b / a * 100 = 100 * b / a := by ring

lemma unassigned_sessions_foldl_filter (rows : List ChannelRow) :
    ∀ acc : ℕ,
      rows.foldl (fun acc row => if row.channel = "Unassigned" then row.sessions else acc) acc
        = (rows.filter fun r => r.channel == "Unassigned").foldl
            (fun acc row => if row.channel = "Unassigned" then row.sessions else acc) acc := by
  induction rows with
  | nil => intro acc; rfl
  | cons r rs ih =>
    intro acc
    by_cases h : r.channel = "Unassigned"
    · simp only [List.filter_cons, beq_iff_eq, h, if_true, List.foldl_cons, ih]
    · simp only [List.filter_cons, beq_iff_eq, h, if_false, List.foldl_cons, ih,
        decide_eq_true_eq, decide_False, Bool.false_eq_true, ite_false]

/-- C1 counterexample: the claim asserts cart-to-checkout and
checkout-to-purchase are computed by the stated formula even when
`view_item = 0`, but the whole rate block in app.py is guarded by
`view_item > 0`, so no conversion rates exist at all for the funnel
counts (0, 4, 2, 1). -/
theorem funnel_rates_zero_view_counterexample :
    funnel_rates ⟨0, 4, 2, 1⟩ = none ∧
      ¬∃ r : FunnelRates, funnel_rates ⟨0, 4, 2, 1⟩ = some r := by
  constructor
  · rfl
  · rintro ⟨r, hr⟩
    simp [funnel_rates] at hr

/-- C1 (amended): whenever `view_item > 0`, each stage-to-stage rate
equals `100 * count(B) / count(A)` rounded to 2 decimal places when the
preceding stage count is positive and 0 when it is zero, and the overall
view-to-purchase rate always divides by `view_item`; when
`view_item = 0` no conversion rates are computed. -/
theorem funnel_rates_spec (f : FunnelCounts) (h : f.view_item > 0) :
    ∃ r : FunnelRates, funnel_rates f = some r ∧
      r.view_to_cart = round2 (100 * f.add_to_cart / f.view_item) ∧
      r.cart_to_checkout =
        (if f.add_to_cart > 0 then round2 (100 * f.begin_checkout / f.add_to_cart) else 0) ∧
      r.checkout_to_purchase =
        (if f.begin_checkout > 0 then round2 (100 * f.purchase / f.begin_checkout) else 0) ∧
      r.view_to_purchase = round2 (100 * f.purchase / f.view_item) := by
  refine ⟨{ view_to_cart := round2 ((f.add_to_cart : ℚ) / f.view_item * 100)
            cart_to_checkout :=
              if f.add_to_cart > 0 then
                round2 ((f.begin_checkout : ℚ) / f.add_to_cart * 100)
              else 0
            checkout_to_purchase :=
              if f.begin_checkout > 0 then
                round2 ((f.purchase : ℚ) / f.begin_checkout * 100)
              else 0
            view_to_purchase := round2 ((f.purchase : ℚ) / f.view_item * 100) },
    ?_, ?_, ?_, ?_, ?_⟩
  · simp [funnel_rates, h]
  all_goals simp only [div_mul_hundred]

/-- C1 witness: Scenario C, funnel counts (1000, 400, 100, 20), where the
guard holds and the rates evaluate to 40.0, 25.0, 20.0 and 2.0 percent. -/
theorem funnel_rates_spec_witness :
    (FunnelCounts.mk 1000 400 100 20).view_item > 0 ∧
      (∃ r : FunnelRates, funnel_rates ⟨1000, 400, 100, 20⟩ = some r ∧
        r.view_to_cart = round2 (100 * (FunnelCounts.mk 1000 400 100 20).add_to_cart /
          (FunnelCounts.mk 1000 400 100 20).view_item) ∧
        r.cart_to_checkout =
          (if (FunnelCounts.mk 1000 400 100 20).add_to_cart > 0 then
            round2 (100 * (FunnelCounts.mk 1000 400 100 20).begin_checkout /
              (FunnelCounts.mk 1000 400 100 20).add_to_cart) else 0) ∧
        r.checkout_to_purchase =
          (if (FunnelCounts.mk 1000 400 100 20).begin_checkout > 0 then
            round2 (100 * (FunnelCounts.mk 1000 400 100 20).purchase /
              (FunnelCounts.mk 1000 400 100 20).begin_checkout) else 0) ∧
        r.view_to_purchase = round2 (100 * (FunnelCounts.mk 1000 400 100 20).purchase /
          (FunnelCounts.mk 1000 400 100 20).view_item)) ∧
      funnel_rates ⟨1000, 400, 100, 20⟩ = some ⟨40, 25, 20, 2⟩ :=
  ⟨by decide, funnel_rates_spec ⟨1000, 400, 100, 20⟩ (by decide),
    by norm_num [funnel_rates, round2]⟩

/-- C2: for all non-negative integers, sessions-per-user is the session
count divided by the user count rounded to 2 decimal places when the
user count is positive and 0 when it is zero; Scenario A, sessions 1000
and users 500, yields 2.0. -/
theorem sessions_per_user_spec (s u : ℕ) :
    sessions_per_user s u = (if u > 0 then round2 ((s : ℚ) / u) else 0) ∧
      sessions_per_user 1000 500 = 2 := by
  exact ⟨rfl, by norm_num [sessions_per_user, round2]⟩

/-- C3: percent-unassigned is 100 times the unassigned count over the
baseline session total rounded to 2 decimal places when that total is
positive and 0 otherwise; the denominator is the baseline total, not the
channel-row sum (last conjunct: channel rows summing to 300 against a
baseline of 1000 still give 30.0, not 100.0). Scenario B evaluates to
unassigned 300 and percent 30.0. -/
theorem percent_unassigned_spec (unassigned total : ℕ) :
    percent_unassigned unassigned total =
        (if total > 0 then round2 (100 * (unassigned : ℚ) / total) else 0) ∧
      unassigned_sessions [⟨"Unassigned", 300⟩, ⟨"Organic", 700⟩] = 300 ∧
      percent_unassigned 300 1000 = 30 ∧
      percent_unassigned (unassigned_sessions [⟨"Unassigned", 300⟩]) 1000 = 30 := by
  refine ⟨?_, by simp [unassigned_sessions], by norm_num [percent_unassigned, round2], ?_⟩
  · unfold percent_unassigned
    split
    · simp only [div_mul_hundred]
    · rfl
  · show percent_unassigned 300 1000 = 30
    norm_num [percent_unassigned, round2]

/-- C4: only the channel row whose dimension value is the literal string
"Unassigned" contributes to the unassigned-session figure (filtering out
all other rows changes nothing, so a channel-sum mismatch cannot matter),
and an empty channel-grouping result with an empty medium result yields
unassigned 0, percent 0 and an empty medium breakdown. -/
theorem unassigned_sessions_spec (rows : List ChannelRow) (total : ℕ) :
    unassigned_sessions rows =
        unassigned_sessions (rows.filter fun r => r.channel == "Unassigned") ∧
      unassigned_sessions ([] : List ChannelRow) = 0 ∧
      percent_unassigned (unassigned_sessions ([] : List ChannelRow)) total = 0 ∧
      unassigned_mediums ([] : List MediumRow) = [] := by
  refine ⟨unassigned_sessions_foldl_filter rows 0, rfl, ?_, rfl⟩
  show percent_unassigned 0 total = 0
  unfold percent_unassigned
  split
  · norm_num [round2]
  · rfl

/-- C5: an empty sessions/users result aborts the aggregation with the
missing-baseline error; no audit output, partial or otherwise, is
produced. -/
theorem aggregate_missing_baseline (channel_rows : List ChannelRow)
    (medium_rows : List MediumRow) (trans_rev_rows : List TransRevRow)
    (dup_rows : List DupRow) (funnel : FunnelCounts) :
    aggregate [] channel_rows medium_rows trans_rev_rows dup_rows funnel =
        .error .missingBaseline ∧
      ∀ o : AuditOutput,
        aggregate [] channel_rows medium_rows trans_rev_rows dup_rows funnel ≠
          Except.ok o := by
  refine ⟨rfl, fun o h => ?_⟩
  simp [aggregate] at h

/-- C6: the fetch fails with the invalid-response error exactly when the
payload is unparseable; a parsed body carrying an error envelope fails
with that envelope's message verbatim (falling back to "Unknown error"
only when the envelope has no message), and this is the only source of
api errors; an error-free parsed body succeeds, and a success with zero
rows (or with the rows key absent) reads as the empty row list. -/
theorem fetch_metric_report_spec (resp : ApiResponse) (m : String)
    (env : Option String) (rows : Option (List MetricRow)) :
    (fetch_metric_report resp = .error .invalidResponse ↔ resp = .unparseable) ∧
      fetch_metric_report (.parsed (some (some m)) rows) = .error (.apiError m) ∧
      fetch_metric_report (.parsed (some env) rows) =
        .error (.apiError (env.getD "Unknown error")) ∧
      ((∃ msg, fetch_metric_report resp = .error (.apiError msg)) ↔
        ∃ e r, resp = .parsed (some e) r) ∧
      fetch_metric_report (.parsed none rows) = .ok rows ∧
      rowsOf (some []) = ([] : List MetricRow) ∧
      rowsOf none = ([] : List MetricRow) := by
  refine ⟨?_, rfl, rfl, ?_, rfl, rfl, rfl⟩
  · cases resp with
    | unparseable => simp [fetch_metric_report]
    | parsed err r =>
      cases err with
      | none => simp [fetch_metric_report]
      | some env' => simp [fetch_metric_report]
  · cases resp with
    | unparseable => simp [fetch_metric_report]
    | parsed err r =>
      cases err with
      | none => simp [fetch_metric_report]
      | some env' => exact ⟨fun _ => ⟨env', r, rfl⟩, fun _ => ⟨_, rfl⟩⟩

/-- C7: the insight list is exactly the concatenation of the four
warning blocks in the source's fixed order, each firing independently of
the others, and the single all-healthy confirmation is displayed if and
only if none of the four conditions holds; a concrete healthy run and a
concrete all-four-warnings run evaluate accordingly. -/
theorem insights_spec (spu pct : ℚ) (dups : List (String × ℕ)) (purchase : ℕ) :
    insights spu pct dups purchase =
        (if spu < 1.5 then [lowEngagementWarning] else []) ++
        (if pct > 20 then [attributionWarning] else []) ++
        (if dups.length > 0 then [duplicateWarning] else []) ++
        (if purchase = 0 then [trackingWarning] else []) ∧
      (insights_output spu pct dups purchase = [allHealthyMessage] ↔
        ¬spu < 1.5 ∧ ¬pct > 20 ∧ ¬dups.length > 0 ∧ ¬purchase = 0) ∧
      insights_output 2 10 [] 5 = [allHealthyMessage] ∧
      insights 1 30 [("TXN1", 2)] 0 =
        [lowEngagementWarning, attributionWarning, duplicateWarning, trackingWarning] := by
  refine ⟨?_, ?_, by norm_num [insights_output, insights], by norm_num [insights]⟩
  · unfold insights
    split_ifs <;> simp
  · unfold insights_output insights
    split_ifs <;>
      simp_all [lowEngagementWarning, attributionWarning, duplicateWarning,
        trackingWarning, allHealthyMessage]

/-- C8: the row-file export carries the fixed two-column header, its data
is the eleven base metric rows (ending with the four funnel event counts,
the purchase row last) followed by one row per medium entry and then one
row per duplicate entry; Scenario D's duplicate rows (TXN1, 3) and
(TXN2, 2) contribute exactly two rows, labeled with the transaction id
and valued with its count, appended after the funnel rows. -/
theorem csv_audit_data_spec (a : AuditSummary) (funnel : FunnelCounts)
    (mediums duplicates : List (String × ℕ)) :
    csv_header = ["Metric", "Value"] ∧
      csv_audit_data a funnel mediums duplicates =
        csv_audit_data a funnel [] []
          ++ mediums.map (fun m => ("Unassigned - " ++ m.1, CsvValue.nat m.2))
          ++ duplicates.map
              (fun d => ("Duplicate Transaction - " ++ d.1, CsvValue.nat d.2)) ∧
      (csv_audit_data a funnel [] []).length = 11 ∧
      (csv_audit_data a funnel [] []).drop 10 =
        [("Purchase Events", CsvValue.nat funnel.purchase)] ∧
      csv_audit_data a funnel mediums [("TXN1", 3), ("TXN2", 2)] =
        csv_audit_data a funnel mediums []
          ++ [("Duplicate Transaction - TXN1", CsvValue.nat 3),
              ("Duplicate Transaction - TXN2", CsvValue.nat 2)] := by
  refine ⟨rfl, ?_, rfl, rfl, ?_⟩
  · simp [csv_audit_data]
  · simp [csv_audit_data]

/-- C9: every conversion rate the code computes is non-negative;
monotonicity of the stage counts is not assumed and a rate above 100 is
produced unclamped (counts view 1, cart 2 give a 200.0 percent
view-to-cart rate, not an error). -/
theorem funnel_rates_nonneg (f : FunnelCounts) (r : FunnelRates)
    (h : funnel_rates f = some r) :
    (0 ≤ r.view_to_cart ∧ 0 ≤ r.cart_to_checkout ∧
        0 ≤ r.checkout_to_purchase ∧ 0 ≤ r.view_to_purchase) ∧
      funnel_rates ⟨1, 2, 0, 0⟩ = some ⟨200, 0, 0, 0⟩ ∧ (100 : ℚ) < 200 := by
  refine ⟨?_, by norm_num [funnel_rates, round2], by norm_num⟩
  unfold funnel_rates at h
  split at h
  · rw [Option.some_inj] at h
    subst h
    refine ⟨round2_nonneg (by positivity), ?_, ?_, round2_nonneg (by positivity)⟩
    · show (0 : ℚ) ≤
        if f.add_to_cart > 0 then
          round2 ((f.begin_checkout : ℚ) / f.add_to_cart * 100)
        else 0
      split
      · exact round2_nonneg (by positivity)
      · exact le_refl 0
    · show (0 : ℚ) ≤
        if f.begin_checkout > 0 then
          round2 ((f.purchase : ℚ) / f.begin_checkout * 100)
        else 0
      split
      · exact round2_nonneg (by positivity)
      · exact le_refl 0
  · exact absurd h (by simp)

/-- C9 witness: Scenario C counts evaluate to the rates 40.0, 25.0, 20.0
and 2.0, and all four are non-negative. -/
theorem funnel_rates_nonneg_witness :
    funnel_rates ⟨1000, 400, 100, 20⟩ = some ⟨40, 25, 20, 2⟩ ∧
      0 ≤ (40 : ℚ) ∧ 0 ≤ (25 : ℚ) ∧ 0 ≤ (20 : ℚ) ∧ 0 ≤ (2 : ℚ) := by
  have hval : funnel_rates ⟨1000, 400, 100, 20⟩ = some ⟨40, 25, 20, 2⟩ := by
    norm_num [funnel_rates, round2]
  have hc := funnel_rates_nonneg ⟨1000, 400, 100, 20⟩ ⟨40, 25, 20, 2⟩ hval
  exact ⟨hval, hc.1.1, hc.1.2.1, hc.1.2.2.1, hc.1.2.2.2⟩

/-- C10: a transactions/revenue query that returns zero rows does not
abort the aggregation: the transaction and revenue totals default to 0
and the run completes with a full audit output. -/
theorem aggregate_empty_transactions (b : BaselineRow) (rest : List BaselineRow)
    (channel_rows : List ChannelRow) (medium_rows : List MediumRow)
    (dup_rows : List DupRow) (funnel : FunnelCounts) :
    ∃ o : AuditOutput,
      aggregate (b :: rest) channel_rows medium_rows [] dup_rows funnel =
          Except.ok o ∧
        o.summary.total_transactions = 0 ∧ o.summary.total_revenue = 0 := by
  exact ⟨_, rfl, rfl, rfl⟩

end GAAudit
